import Mathlib

/-!
Shallow embedding of the todo-list view component in
src/src/client/components/TodoList.tsx, together with theorems settling
the specification claims about it.

The component is a single React function component.  We model:
  * the `Status` and `Todo` data (statuses are the two string literals
    accepted by the backend; todos carry a numeric id, a body and a status);
  * the component's local state (`activeTab`, typed in TypeScript as the
    union of three string literals but at runtime an arbitrary string set
    through an unchecked cast, plus the query's `data`, which is absent
    until the first successful fetch and defaulted to the empty list at
    the destructuring site);
  * the outgoing remote requests built by the handlers;
  * the event-driven behaviour as a step function over discrete events
    (tab change, fetch settling, checkbox click, mutation settling); and
  * the per-row rendering output (checkbox id / checked state, label
    class and for-attribute, delete button aria-label).
-/

namespace TodoApp

/-- A todo status: the two string-literal values `pending` and `completed`
used throughout the component. -/
inductive Status where
  | pending
  | completed
deriving DecidableEq, Repr

/-- The runtime string carried by a `Status` value. -/
def Status.toStr : Status → String
  | .pending => "pending"
  | .completed => "completed"

/-- A todo record as returned by `api.todo.getAll`: numeric id, text body
and a status. -/
structure Todo where
  id : Int
  body : String
  status : Status
deriving DecidableEq, Repr

/-- The component's local state.  `activeTab` is declared in TypeScript as
the union type of the three literals, but `handleTabChange` stores an
arbitrary incoming string through the cast `value as ...` (line 73), so we
model it as a `String`.  `todos` models the query's `data`: `none` before
any successful fetch, `some ts` after data arrives. -/
structure ViewState where
  activeTab : String
  todos : Option (List Todo)
deriving DecidableEq, Repr

/-- Initial state: `useState` is seeded with the literal `all` (lines
68-70), and the query has no data yet. -/
def initialState : ViewState := { activeTab := "all", todos := none }

/-- The `statuses` array passed to `api.todo.getAll.useQuery` (line 77):
`activeTab === 'all' ? ['completed', 'pending'] : [activeTab]`. -/
def queryStatuses (activeTab : String) : List String :=
  if activeTab == "all" then ["completed", "pending"] else [activeTab]

/-- An outgoing remote-service request issued by the component. -/
inductive Request where
  | getAll (statuses : List String)
  | updateStatus (todoId : Int) (status : Status)
  | delete (id : Int)
deriving DecidableEq, Repr

/-- The status flip inside `handleCheckboxChange` (line 92):
`status === 'completed' ? 'pending' : 'completed'`. -/
def flipStatus (status : Status) : Status :=
  if status == Status.completed then Status.pending else Status.completed

/-- `handleCheckboxChange` (lines 86-94): builds the
`api.todoStatus.update` mutation input from a todo's id and its current
status, requesting the flipped status. -/
def handleCheckboxChange (todoId : Int) (status : Status) : Request :=
  Request.updateStatus todoId (flipStatus status)

/-- `handleDelete` (lines 102-104): builds the `api.todo.delete` mutation
input from a todo's id. -/
def handleDelete (todoId : Int) : Request :=
  Request.delete todoId

/-- `handleTabChange` (lines 72-74): stores the incoming tab value into
`activeTab` (the TypeScript cast performs no runtime check). -/
def handleTabChange (value : String) (s : ViewState) : ViewState :=
  { s with activeTab := value }

/-- The `value` attributes of the three `Tabs.Trigger` elements (lines
122, 132, 142): the only strings the bound tab control can emit. -/
def tabTriggerValues : List String := ["all", "pending", "completed"]

/-- Discrete events driving the component: a tab-control change, the list
query settling (with data or with an error), a checkbox click on a row, a
delete-button click on a row, and the two mutations settling. -/
inductive Event where
  | tabChange (value : String)
  | fetchSuccess (todos : List Todo)
  | fetchFailure
  | toggleClick (todoId : Int) (status : Status)
  | updateSuccess
  | updateFailure
  | deleteClick (todoId : Int)
  | deleteFailure
  | deleteSuccess
deriving DecidableEq, Repr

/-- Whether an event is a tab-control change. -/
def Event.isTabChange : Event → Bool
  | .tabChange _ => true
  | _ => false

/-- One step of the component: the next local state and the list of remote
requests issued.  A tab change re-issues the list query with the new
filter (the `useQuery` input on line 77 depends on `activeTab`); fetch
success stores the data; fetch failure changes nothing (line 76 keeps the
last `data`); a checkbox click issues only the status-update request
(lines 86-94, no local write); `onSuccess` of either mutation calls
`refetchTodos` (lines 81-83 and 97-99), re-issuing the query with the
currently active filter; mutation failure triggers no handler at all. -/
def step (s : ViewState) : Event → ViewState × List Request
  | .tabChange v => (handleTabChange v s, [Request.getAll (queryStatuses v)])
  | .fetchSuccess ts => ({ s with todos := some ts }, [])
  | .fetchFailure => (s, [])
  | .toggleClick todoId status => (s, [handleCheckboxChange todoId status])
  | .updateSuccess => (s, [Request.getAll (queryStatuses s.activeTab)])
  | .updateFailure => (s, [])
  | .deleteClick todoId => (s, [handleDelete todoId])
  | .deleteFailure => (s, [])
  | .deleteSuccess => (s, [Request.getAll (queryStatuses s.activeTab)])

/-- Run a sequence of events from a state, keeping only the state. -/
def run (s : ViewState) : List Event → ViewState
  | [] => s
  | e :: es => run (step s e).1 es

/-- The todo list the component maps over (line 150): the query's `data`,
defaulted to the empty array at the destructuring `data: todos = []`
(line 76). -/
def renderedTodos (s : ViewState) : List Todo :=
  s.todos.getD []

/-- The observable pieces of one rendered `li` row (lines 151-194). -/
structure TodoRow where
  liClassName : String
  checkboxId : String
  checked : Bool
  labelClassName : String
  labelFor : String
  labelText : String
  deleteAriaLabel : String
deriving DecidableEq, Repr

/-- Rendering of a single todo row, transcribing lines 151-192: the `li`
class (line 153), the `Checkbox.Root` id (line 162) and checked state
(line 164), the label class (line 175), for-attribute (line 180) and text
(line 182), and the delete button's aria-label (line 189). -/
def renderRow (todo : Todo) : TodoRow :=
  { liClassName := "rounded-12 border px-4 py-3 shadow-sm " ++
      (if todo.status == Status.completed then "border-gray-200 bg-gray-50"
       else "border-gray-200")
    checkboxId := toString todo.id
    checked := todo.status == Status.completed
    labelClassName := "block pl-3 font-medium " ++
      (if todo.status == Status.completed then "text-gray-400 line-through"
       else "")
    labelFor := toString todo.id
    labelText := todo.body
    deleteAriaLabel := "Delete todo" }

/-- The rendered rows for a state. -/
def renderList (s : ViewState) : List TodoRow :=
  (renderedTodos s).map renderRow

/-- Splits a character list at each occurrence of a separator,
accumulating the current token in reverse. -/
def splitAux (sep : Char) : List Char → List Char → List String
  | [], acc => [String.mk acc.reverse]
  | c :: cs, acc =>
    if c = sep then String.mk acc.reverse :: splitAux sep cs []
    else splitAux sep cs (c :: acc)

/-- Splits a string at each occurrence of a separator character, yielding
the list of tokens between separators. -/
def splitOnChar (sep : Char) (s : String) : List String :=
  splitAux sep s.toList []

/-- Whether a row's label class string contains the strike-through
utility class as one of its space-separated tokens. -/
def hasLineThrough (row : TodoRow) : Bool :=
  (splitOnChar ' ' row.labelClassName).contains "line-through"

/-- The status set implied by a filter value according to the
specification: `all` maps to both statuses, `pending` and `completed`
each map to themselves. -/
def impliedStatusSet (filter : String) : Finset String :=
  if filter = "all" then {"pending", "completed"}
  else if filter = "pending" then {"pending"}
  else if filter = "completed" then {"completed"}
  else ∅

end TodoApp

namespace TodoApp

/-- Claim C1: for each filter value, the status set requested from the
remote service via `api.todo.getAll` equals the filter's implied status
set, and consequently, whenever the service returns only todos whose
statuses were requested, every rendered todo's status lies in the
filter's implied set. -/
theorem query_statuses_match_implied_set (filter : String)
    (h : filter = "all" ∨ filter = "pending" ∨ filter = "completed") :
    (queryStatuses filter).toFinset = impliedStatusSet filter ∧
    ∀ ts : List Todo, (∀ t ∈ ts, t.status.toStr ∈ queryStatuses filter) →
      ∀ t ∈ renderedTodos { activeTab := filter, todos := some ts },
        t.status.toStr ∈ impliedStatusSet filter := by
  have heq : (queryStatuses filter).toFinset = impliedStatusSet filter := by
    rcases h with h | h | h <;> subst h <;> decide
  refine ⟨heq, ?_⟩
  intro ts hts t ht
  have hmem : t.status.toStr ∈ queryStatuses filter := by
    refine hts t ?_
    simpa [renderedTodos] using ht
  rw [← heq]
  simpa [List.mem_toFinset] using hmem

/-- Witness for C1 at the concrete filter `pending`. -/
theorem query_statuses_match_implied_set_witness :
    (queryStatuses "pending").toFinset = impliedStatusSet "pending" :=
  (query_statuses_match_implied_set "pending" (Or.inr (Or.inl rfl))).1

/-- Claim C2: `handleCheckboxChange` requests the remote service set the
todo's status to the opposite of its current status: a pending todo is
requested to become completed and a completed todo to become pending. -/
theorem toggle_requests_opposite_status (todoId : Int) :
    handleCheckboxChange todoId Status.pending
      = Request.updateStatus todoId Status.completed ∧
    handleCheckboxChange todoId Status.completed
      = Request.updateStatus todoId Status.pending :=
  ⟨rfl, rfl⟩

/-- Claim C3: after a successful status-update mutation and after a
successful delete mutation, the component leaves its local state
untouched and re-issues the list query with the currently active
filter. -/
theorem mutation_success_refetches_with_active_filter (s : ViewState) :
    step s Event.updateSuccess
      = (s, [Request.getAll (queryStatuses s.activeTab)]) ∧
    step s Event.deleteSuccess
      = (s, [Request.getAll (queryStatuses s.activeTab)]) :=
  ⟨rfl, rfl⟩

/-- Claim C4: a rendered row's checkbox is checked exactly when the
todo's status is completed, and its label carries the strike-through
class exactly when the todo's status is completed. -/
theorem row_checked_and_strikethrough_iff_completed (todo : Todo) :
    ((renderRow todo).checked = true ↔ todo.status = Status.completed) ∧
    (hasLineThrough (renderRow todo) = true ↔ todo.status = Status.completed) := by
  obtain ⟨i, b, st⟩ := todo
  have hc : (renderRow ⟨i, b, st⟩).checked = (st == Status.completed) := rfl
  have hl : hasLineThrough (renderRow ⟨i, b, st⟩) = (st == Status.completed) := by
    cases st <;> rfl
  rw [hc, hl]
  cases st <;> simp

/-- Claim C5: a checkbox click and a delete click issue only remote
requests and never change the local state (no optimistic mutation), and
a failed mutation of either kind leaves the local state, hence the
displayed list, exactly as it was. -/
theorem failed_mutation_leaves_view_unchanged (s : ViewState)
    (todoId : Int) (status : Status) :
    (step s (Event.toggleClick todoId status)).1 = s ∧
    (step s (Event.deleteClick todoId)).1 = s ∧
    (step s Event.updateFailure).1 = s ∧
    (step s Event.deleteFailure).1 = s ∧
    renderList (step s Event.updateFailure).1 = renderList s ∧
    renderList (step s Event.deleteFailure).1 = renderList s :=
  ⟨rfl, rfl, rfl, rfl, rfl, rfl⟩

/-- Claim C6: `activeTab` starts as `all`, and every event other than a
tab change leaves `activeTab` unchanged. -/
theorem activeTab_initial_all_and_framed (s : ViewState) (e : Event)
    (h : e.isTabChange = false) :
    initialState.activeTab = "all" ∧ (step s e).1.activeTab = s.activeTab := by
  refine ⟨rfl, ?_⟩
  cases e <;> first | rfl | simp [Event.isTabChange] at h

/-- Witness for C6 at the concrete event `updateSuccess`. -/
theorem activeTab_initial_all_and_framed_witness :
    initialState.activeTab = "all" ∧
    (step initialState Event.updateSuccess).1.activeTab
      = initialState.activeTab :=
  activeTab_initial_all_and_framed initialState Event.updateSuccess rfl

/-- Helper invariant: running any event sequence whose tab-change values
all come from the bound tab control preserves membership of `activeTab`
in the three trigger values. -/
theorem run_preserves_tab_validity (es : List Event) (s : ViewState)
    (hs : s.activeTab ∈ tabTriggerValues)
    (hes : ∀ v, Event.tabChange v ∈ es → v ∈ tabTriggerValues) :
    (run s es).activeTab ∈ tabTriggerValues := by
  induction es generalizing s with
  | nil => exact hs
  | cons e es ih =>
    have hes' : ∀ v, Event.tabChange v ∈ es → v ∈ tabTriggerValues := by
      intro v hv
      exact hes v (List.mem_cons_of_mem _ hv)
    cases e with
    | tabChange v => exact ih _ (hes v (List.mem_cons_self _ _)) hes'
    | fetchSuccess ts => exact ih _ hs hes'
    | fetchFailure => exact ih _ hs hes'
    | toggleClick todoId status => exact ih _ hs hes'
    | updateSuccess => exact ih _ hs hes'
    | updateFailure => exact ih _ hs hes'
    | deleteClick todoId => exact ih _ hs hes'
    | deleteFailure => exact ih _ hs hes'
    | deleteSuccess => exact ih _ hs hes'

/-- Claim C7: a tab change sets `activeTab` to the incoming value, and
along any event sequence whose tab-change values are among the three
values emitted by the bound control, `activeTab` always holds one of the
three valid values. -/
theorem selectTab_keeps_activeTab_valid (es : List Event)
    (hes : ∀ v, Event.tabChange v ∈ es → v ∈ tabTriggerValues) :
    (∀ v s, (step s (Event.tabChange v)).1.activeTab = v) ∧
    (run initialState es).activeTab ∈ tabTriggerValues := by
  refine ⟨fun v s => rfl, ?_⟩
  refine run_preserves_tab_validity es initialState ?_ hes
  simp [initialState, tabTriggerValues]

/-- Witness for C7 on the concrete event sequence of one tab change. -/
theorem selectTab_keeps_activeTab_valid_witness :
    (∀ v s, (step s (Event.tabChange v)).1.activeTab = v) ∧
    (run initialState [Event.tabChange "pending"]).activeTab
      ∈ tabTriggerValues := by
  refine selectTab_keeps_activeTab_valid [Event.tabChange "pending"] ?_
  intro v hv
  simp only [List.mem_singleton, Event.tabChange.injEq] at hv
  subst hv
  simp [tabTriggerValues]

/-- Claim C8: before any data has arrived (in particular in the initial
state, and still after a fetch failure), the component renders the empty
list and its rendering is total, so it cannot crash. -/
theorem no_data_renders_empty (s : ViewState) (h : s.todos = none) :
    initialState.todos = none ∧
    renderList s = [] ∧
    (step s Event.fetchFailure).1 = s := by
  refine ⟨rfl, ?_, rfl⟩
  simp [renderList, renderedTodos, h]

/-- Witness for C8 at the initial state. -/
theorem no_data_renders_empty_witness :
    initialState.todos = none ∧
    renderList initialState = [] ∧
    (step initialState Event.fetchFailure).1 = initialState :=
  no_data_renders_empty initialState rfl

/-- Claim C9: each rendered row's checkbox id equals the todo's id, the
label's for-attribute equals that same id, and the delete button exposes
the accessible name Delete todo. -/
theorem row_accessibility_bindings (todo : Todo) :
    (renderRow todo).checkboxId = toString todo.id ∧
    (renderRow todo).labelFor = toString todo.id ∧
    (renderRow todo).deleteAriaLabel = "Delete todo" :=
  ⟨rfl, rfl, rfl⟩

/-- Claim C10: the status flip used by the toggle operation is an
involution: flipping any status twice yields the original status. -/
theorem flipStatus_involutive (s : Status) :
    flipStatus (flipStatus s) = s := by
  cases s <;> rfl

end TodoApp
